import Mathlib

/-!
# Verification of the `tracking` point-tracker and cluster-builder

A shallow embedding of the core logic of `src/tracking/point.py` and
`src/tracking/cluster.py`, together with theorems settling the frozen claims
about the specification.

Modelling conventions:

* Python floats are modelled as exact rationals (`ℚ`) in the arithmetic
  fragment (window statistics, distances, health bookkeeping), and as real
  numbers in the search-region geometry, where square roots and `cos/sin` of
  `π/6` are irrational.  Non-finite float values (NaN, produced by `0.0/0.0`)
  are modelled explicitly by `Option ℝ` (`none` = non-finite); the only
  division in the modelled geometry is by a Euclidean norm, which vanishes
  only when its numerator vector is zero, so folding all non-finite results
  into `none` is exact for every reachable computation.
* Python `int(...)` truncation toward zero on a rational is `pyInt`.
* A `deque(maxlen = n)` is a list that drops its oldest element when a
  `.append` would exceed `n` (`dequeAppend`).
* `np.mean` of a list is its sum divided by its length.  `np.mean` of an
  empty list is NaN in numpy; every modelled consumer of a velocity mean
  first checks that the position window has at least 2 entries (so the
  velocity window is non-empty), hence representing the never-consumed
  empty mean by `0` is sound.
* Python objects compared with `in` / set membership use object identity;
  the model uses structural equality and represents distinct objects by
  distinct values (the vision pipeline creates a fresh `Circle` object per
  detection and a fresh `Point` object per track).
-/

namespace Tracking

/-! ## Tunables (src/tracking/point.py, lines 18-49) -/

/-- `MAX_DISTANCE = 320` (point.py line 26): "The maximum distance, in pixels,
a point can travel". -/
def MAX_DISTANCE : ℚ := 320

/-- `WINDOW_SIZE = 10` (point.py line 29): window size used for running
averages. -/
def WINDOW_SIZE : ℕ := 10

/-- `FRAME_TIMEOUT = 20` (point.py line 32): minimum point health before
points are removed. -/
def FRAME_TIMEOUT : ℤ := 20

/-- `POINT_MAX_HEALTH = 50` (point.py line 35). -/
def POINT_MAX_HEALTH : ℤ := 50

/-! ## Basic numeric helpers -/

/-- Python `int(q)` on a float/rational: truncation toward zero.
`Int.tdiv` is T-division (rounds toward zero), and `q.den > 0`. -/
def pyInt (q : ℚ) : ℤ := Int.tdiv q.num (q.den : ℤ)

/-- `np.mean` of a list of floats (sum divided by length).  For the empty
list numpy yields NaN; see the module docstring for why `0` is a sound
stand-in at the (never consumed) empty case. -/
def listMean (l : List ℚ) : ℚ := l.sum / (l.length : ℚ)

/-- `np.diff`: consecutive differences `l[i+1] - l[i]`. -/
def listDiff : List ℚ → List ℚ
  | a :: b :: rest => (b - a) :: listDiff (b :: rest)
  | _ => []

/-- `np.mean(..., axis = 0)` over a window of 3-component colors. -/
def colorMean (l : List (ℚ × ℚ × ℚ)) : ℚ × ℚ × ℚ :=
  (listMean (l.map (fun c => c.1)),
   listMean (l.map (fun c => c.2.1)),
   listMean (l.map (fun c => c.2.2)))

/-- `deque(maxlen = maxlen).append`: append on the right, evicting the
oldest element when the deque is at capacity. -/
def dequeAppend (maxlen : ℕ) (l : List α) (x : α) : List α :=
  (l ++ [x]).drop (l.length + 1 - maxlen)

/-! ## Detections (`Circle`, src/tracking/vision.py lines 19-35)

The `contour` field (an OpenCV contour handle) is never read by the core
tracking logic and is omitted. -/

/-- A raw candidate detection produced by the vision pipeline. -/
structure Circle where
  frame : ℤ
  x : ℚ
  y : ℚ
  radius : ℚ
  circularity : ℚ
  color : ℚ × ℚ × ℚ
  deriving DecidableEq

/-! ## Tracked points (`Point`, src/tracking/point.py lines 91-416)

The structure holds exactly the mutable attributes written by
`Point.__init__` / `Point.update` (point.py lines 96-150).  The cached
`search_bounds` attribute is not stored: `update` refreshes it from the
current windows whenever the window holds at least 2 entries, and
`in_predicted_bounds` reads it only under the same 2-entry guard, so at
every read the cache equals `get_search_bounds` applied to the current
state; the model therefore derives it (see `get_search_bounds` below).
The global auto-incrementing `index` is display-only identity and is
likewise omitted: the model identifies a point by its value. -/

/-- State of one tracked point. -/
structure Point where
  frame_numbers : List ℤ
  circle_history : List Circle
  health : ℤ
  x_window : List ℚ
  x_window_mean : ℚ
  x_velocity_window : List ℚ
  x_velocity_mean : ℚ
  y_window : List ℚ
  y_window_mean : ℚ
  y_velocity_window : List ℚ
  y_velocity_mean : ℚ
  circularity_window : List ℚ
  circularity_mean : ℚ
  color_window : List (ℚ × ℚ × ℚ)
  color_mean : ℚ × ℚ × ℚ
  deriving DecidableEq

/-- The attribute state set up by `Point.__init__` (point.py lines 101-122)
just before its trailing `self.update(circle)` call. -/
def Point.blank : Point where
  frame_numbers := []
  circle_history := []
  health := 0
  x_window := []
  x_window_mean := 0
  x_velocity_window := []
  x_velocity_mean := 0
  y_window := []
  y_window_mean := 0
  y_velocity_window := []
  y_velocity_mean := 0
  circularity_window := []
  circularity_mean := 0
  color_window := []
  color_mean := (0, 0, 0)

/-- `Point.update(circle)` (point.py lines 126-150): append the detection to
every window, recompute the running means and velocity means, and increment
health by 1 while below `POINT_MAX_HEALTH`.  (The `search_bounds` cache
refresh on line 147 is modelled by deriving `get_search_bounds` from the
windows; see the structure docstring.) -/
def Point.update (p : Point) (circle : Circle) : Point :=
  let x_window := dequeAppend WINDOW_SIZE p.x_window circle.x
  let y_window := dequeAppend WINDOW_SIZE p.y_window circle.y
  let circularity_window := dequeAppend WINDOW_SIZE p.circularity_window circle.circularity
  let color_window := dequeAppend WINDOW_SIZE p.color_window circle.color
  let x_velocity_window := listDiff x_window
  let y_velocity_window := listDiff y_window
  { frame_numbers := dequeAppend WINDOW_SIZE p.frame_numbers circle.frame
    circle_history := dequeAppend WINDOW_SIZE p.circle_history circle
    health := if p.health < POINT_MAX_HEALTH then p.health + 1 else p.health
    x_window := x_window
    x_window_mean := listMean x_window
    x_velocity_window := x_velocity_window
    x_velocity_mean := listMean x_velocity_window
    y_window := y_window
    y_window_mean := listMean y_window
    y_velocity_window := y_velocity_window
    y_velocity_mean := listMean y_velocity_window
    circularity_window := circularity_window
    circularity_mean := listMean circularity_window
    color_window := color_window
    color_mean := colorMean color_window }

/-- `Point.__init__(circle)` (point.py lines 96-124): initialize all windows
empty then perform the first `update`. -/
def Point.init (circle : Circle) : Point := Point.blank.update circle

/-- `Point.update_empty(frame)` (point.py lines 152-159): health decays by 5
("decay is stronger than growth"). -/
def Point.update_empty (p : Point) (frame : ℤ) : Point :=
  { p with health := p.health - 5 }

/-- `Point.is_expired(frame)` (point.py lines 161-162). -/
def Point.is_expired (p : Point) (frame : ℤ) : Bool :=
  decide (p.health < -FRAME_TIMEOUT)

/-- The `Point.x` property (point.py lines 376-378): `int(self.x_window_mean)`. -/
def Point.xInt (p : Point) : ℤ := pyInt p.x_window_mean

/-- The `Point.y` property (point.py lines 380-382). -/
def Point.yInt (p : Point) : ℤ := pyInt p.y_window_mean

/-- The `(self.x, self.y)` pair, as rationals, for geometric use. -/
def Point.xy (p : Point) : ℚ × ℚ := ((p.xInt : ℚ), (p.yInt : ℚ))

/-- The `Point.last_frame` property (point.py lines 397-399):
`self.frame_numbers[-1]`.  (Indexing an empty deque raises in Python; the
default is never consumed because every caller runs after at least one
`update`.) -/
def Point.last_frame (p : Point) : ℤ := p.frame_numbers.getLastD 0

/-- `Point.predicted_pos(current_frame)` (point.py lines 187-213).  Python
defaults `current_frame` to the sentinel `-1`, which selects multiplier 1. -/
def Point.predicted_pos (p : Point) (current_frame : ℤ) : ℚ × ℚ :=
  if p.x_window.length < 2 then
    ((p.xInt : ℚ), (p.yInt : ℚ))
  else
    let multiplier : ℤ := if current_frame = -1 then 1 else current_frame - p.last_frame
    (p.x_window.getLastD 0 + p.x_velocity_mean * (multiplier : ℚ),
     p.y_window.getLastD 0 + p.y_velocity_mean * (multiplier : ℚ))

/-- `Point.predicted_distance_squared(circle)` (point.py lines 273-276). -/
def Point.predicted_distance_squared (p : Point) (circle : Circle) : ℚ :=
  let pr := p.predicted_pos circle.frame
  (circle.x - pr.1) ^ 2 + (circle.y - pr.2) ^ 2

/-- `Point.distance_squared(point)` (point.py lines 278-286): squared
distance from this point's raw mean to the other point-like's `.x`/`.y`
properties (which for a `Point` argument are its truncated means). -/
def Point.distance_squared (p : Point) (other : Point) : ℚ :=
  ((other.xInt : ℚ) - p.x_window_mean) ^ 2 + ((other.yInt : ℚ) - p.y_window_mean) ^ 2

/-! ## Float model for the search-region geometry

`Point.get_search_bounds` (point.py lines 215-255) computes with numpy
floats: a Euclidean norm (square root) and a rotation by `π/6` make the
results irrational, and dividing the zero vector by its zero norm yields
NaN (numpy raises no exception; it emits a warning and propagates NaN).
A float value is modelled as `Option ℝ`, `none` standing for a non-finite
value.  The only division performed is `n / ‖n‖`; when `‖n‖ = 0` the
numerator is the zero vector, so every non-finite value produced by the
modelled code is a genuine `0.0 / 0.0` NaN, and collapsing all non-finite
values into `none` is exact. -/

/-- A numpy float: `some r` if finite, `none` if NaN. -/
abbrev FVal := Option ℝ

/-- Float addition, propagating NaN. -/
def fadd (a b : FVal) : FVal := a.bind fun x => b.map fun y => x + y

/-- Float subtraction, propagating NaN. -/
def fsub (a b : FVal) : FVal := a.bind fun x => b.map fun y => x - y

/-- Float multiplication, propagating NaN. -/
def fmul (a b : FVal) : FVal := a.bind fun x => b.map fun y => x * y

/-- Float division: division by zero is non-finite (in the modelled code the
numerator is then also zero, so this is exactly the IEEE NaN case). -/
noncomputable def fdiv (a b : FVal) : FVal :=
  a.bind fun x => b.bind fun y => if y = 0 then none else some (x / y)

/-- Float square root; the square root of a negative float is NaN. -/
noncomputable def fsqrt (a : FVal) : FVal :=
  a.bind fun x => if x < 0 then none else some (Real.sqrt x)

/-- `BOUNDS_MULTIPLIER = 20` (point.py line 42). -/
def BOUNDS_MULTIPLIER : ℝ := 20

/-- `ROTATION_THETA = np.pi / 6` (point.py line 45). -/
noncomputable def ROTATION_THETA : ℝ := Real.pi / 6

/-- Body of `Point.get_search_bounds` (point.py lines 229-255) for a window
with at least 2 entries: the triangle `[(rx, ry), (ccw_x, ccw_y),
(cw_x, cw_y)]`.  `a` is the vector of the integer-truncated mean position
(`self.x`, `self.y`); `n` is the mean velocity vector; `n_uv = n / ‖n‖` is
computed with NO guard against `‖n‖ = 0` (line 237). -/
noncomputable def searchTriangle (p : Point) : List (FVal × FVal) :=
  let ax : FVal := some ((p.xInt : ℝ))
  let ay : FVal := some ((p.yInt : ℝ))
  let nx : FVal := some ((p.x_velocity_mean : ℝ))
  let ny : FVal := some ((p.y_velocity_mean : ℝ))
  let n_norm : FVal := fsqrt (fadd (fmul nx nx) (fmul ny ny))
  let ux : FVal := fdiv nx n_norm
  let uy : FVal := fdiv ny n_norm
  let bm : FVal := some BOUNDS_MULTIPLIER
  let rx := fsub ax (fmul bm ux)
  let ry := fsub ay (fmul bm uy)
  let ccwx := fsub (fmul (some (Real.cos ROTATION_THETA)) ux)
                   (fmul (some (Real.sin ROTATION_THETA)) uy)
  let ccwy := fadd (fmul (some (Real.sin ROTATION_THETA)) ux)
                   (fmul (some (Real.cos ROTATION_THETA)) uy)
  let cwx := fsub (fmul (some (Real.cos (-ROTATION_THETA))) ux)
                  (fmul (some (Real.sin (-ROTATION_THETA))) uy)
  let cwy := fadd (fmul (some (Real.sin (-ROTATION_THETA))) ux)
                  (fmul (some (Real.cos (-ROTATION_THETA))) uy)
  let factor := fmul bm n_norm
  [(rx, ry),
   (fadd ax (fmul factor ccwx), fadd ay (fmul factor ccwy)),
   (fadd ax (fmul factor cwx), fadd ay (fmul factor cwy))]

/-- `Point.get_search_bounds` (point.py lines 215-255): `None` for a window
with fewer than 2 entries, otherwise the search triangle. -/
noncomputable def Point.get_search_bounds (p : Point) : Option (List (FVal × FVal)) :=
  if p.x_window.length < 2 then none else some (searchTriangle p)

/-! ### `cv2.pointPolygonTest` (external call, point.py line 271)

OpenCV is an external collaborator; the call is modelled by its documented
semantics with `measureDist = False`: the return value is `+1.0` when the
query point lies strictly inside the contour, `0.0` when it lies on an
edge, and `-1.0` when it lies strictly outside. -/

/-- 2-D cross product `(a - o) × (p - o)`. -/
def cross2 (o a p : ℝ × ℝ) : ℝ :=
  (a.1 - o.1) * (p.2 - o.2) - (a.2 - o.2) * (p.1 - o.1)

/-- The point `p` lies on the closed segment from `a` to `b`. -/
def onSegment (a b p : ℝ × ℝ) : Prop :=
  cross2 a b p = 0 ∧ min a.1 b.1 ≤ p.1 ∧ p.1 ≤ max a.1 b.1 ∧
    min a.2 b.2 ≤ p.2 ∧ p.2 ≤ max a.2 b.2

open Classical in
/-- `cv2.pointPolygonTest(contour, p, False)` for a triangular contour:
`0` on the boundary, `1` strictly inside, `-1` strictly outside. -/
noncomputable def pptTri (a b c p : ℝ × ℝ) : ℝ :=
  if onSegment a b p ∨ onSegment b c p ∨ onSegment c a p then 0
  else if (0 < cross2 a b p ∧ 0 < cross2 b c p ∧ 0 < cross2 c a p) ∨
          (cross2 a b p < 0 ∧ cross2 b c p < 0 ∧ cross2 c a p < 0) then 1
  else -1

/-- Extract a finite triangle from a list of float vertices; `none` if any
coordinate is NaN. -/
def extractTriangle : List (FVal × FVal) → Option (List (ℝ × ℝ))
  | [] => some []
  | (some x, some y) :: rest => (extractTriangle rest).map (fun l => (x, y) :: l)
  | _ => none

/-- `cv2.pointPolygonTest` on the float triangle produced by
`searchTriangle`.  OpenCV's behaviour on NaN vertices is unspecified; the
model propagates NaN (no theorem depends on that branch).  The search
bounds always hold exactly 3 vertices; other shapes are unreachable. -/
noncomputable def fPointPolygonTest (poly : List (FVal × FVal)) (pt : ℝ × ℝ) : FVal :=
  (extractTriangle poly).bind (fun l =>
    match l with
    | [a, b, c] => some (pptTri a b c pt)
    | _ => none)

/-! ### Python truthiness of the bounds check

`Point.in_predicted_bounds` (point.py lines 257-271) returns the Python
bool `True` when the window has fewer than 2 entries, and otherwise the raw
FLOAT returned by `cv2.pointPolygonTest` — not a bool.  `find_points`
consumes it as `if not point.in_predicted_bounds(circle)` (line 439), i.e.
through Python truthiness: `False` and `0.0` are falsy; every non-zero
float, including `-1.0` (strictly outside) and NaN, is truthy. -/

/-- A value that is either a Python bool or a Python float. -/
inductive PyVal where
  | bool : Bool → PyVal
  | float : FVal → PyVal

/-- Python truthiness of a `PyVal` (`bool(nan)` is `True`). -/
noncomputable def PyVal.truthy : PyVal → Bool
  | .bool b => b
  | .float none => true
  | .float (some q) => if q = 0 then false else true

/-- `Point.in_predicted_bounds(circle)` (point.py lines 257-271): `True`
for a window with fewer than 2 entries, otherwise the raw float result of
`cv2.pointPolygonTest(self.search_bounds, (circle.x, circle.y), False)`. -/
noncomputable def Point.in_predicted_bounds (p : Point) (circle : Circle) : PyVal :=
  if p.x_window.length < 2 then PyVal.bool true
  else PyVal.float (fPointPolygonTest (searchTriangle p) ((circle.x : ℝ), (circle.y : ℝ)))

/-! ## Per-frame correspondence (`find_points`, point.py lines 419-469)

`find_points` first gathers every valid `(point, circle, dist)` triple
(lines 431-445), then sorts the triples ascending by squared distance and
walks them greedily (lines 450-456), calling `point.update(circle)` once
per committed triple.  The walk depends only on the pre-built list of
triples — the updates it performs do not feed back into it — so the model
computes the list of committed triples directly; its elements are exactly
the `(point, circle)` pairs for which `point.update(circle)` runs, in
execution order. -/

/-- A candidate entry of the `distances` list (point.py line 445). -/
structure Cand where
  point : Point
  circle : Circle
  distSq : ℚ
  deriving DecidableEq

/-- The inner loop body of the candidate-gathering pass (point.py lines
438-445): skip the circle unless the bounds check is truthy and the squared
predicted distance is below `MAX_DISTANCE`. -/
noncomputable def candOf (p : Point) (c : Circle) : Option Cand :=
  if (p.in_predicted_bounds c).truthy = false then none
  else
    let dist := p.predicted_distance_squared c
    if dist < MAX_DISTANCE then some ⟨p, c, dist⟩ else none

/-- The candidate-gathering pass (point.py lines 431-445): expired points
contribute no candidates (they are collected and removed instead). -/
noncomputable def candidateList (circles : List Circle) (frame_count : ℤ) :
    List Point → List Cand
  | [] => []
  | p :: rest =>
      (if p.is_expired frame_count then [] else circles.filterMap (candOf p))
        ++ candidateList circles frame_count rest

/-- The sort key order of `sorted(distances, key = lambda d: d[2])`
(point.py line 451). -/
def candLe (a b : Cand) : Prop := a.distSq ≤ b.distSq

instance : DecidableRel candLe :=
  fun a b => inferInstanceAs (Decidable (a.distSq ≤ b.distSq))

instance : IsTotal Cand candLe := ⟨fun a b => le_total a.distSq b.distSq⟩

instance : IsTrans Cand candLe := ⟨fun _ _ _ h1 h2 => le_trans h1 h2⟩

/-- Strict version of `candLe`, used to show that a sorted candidate list
with pairwise-distinct keys is unique. -/
def candLt (a b : Cand) : Prop := a.distSq < b.distSq

instance : IsAntisymm Cand candLt := ⟨fun _ _ h1 h2 => absurd h2 (lt_asymm h1)⟩

/-- The greedy commit walk (point.py lines 450-456): traverse the sorted
candidates; skip a candidate whose circle was already claimed, otherwise
commit it and claim its circle.  There is no corresponding check on the
point — only circles are recorded in `paired_circles`. -/
def greedyWalk : List Cand → List Circle → List Cand
  | [], _ => []
  | k :: rest, paired =>
      if k.circle ∈ paired then greedyWalk rest paired
      else k :: greedyWalk rest (paired ++ [k.circle])

/-- The list of matches committed by one `find_points` call (point.py lines
429-456): each element is one `point.update(circle)` invocation, in order.
Python's `sorted` is a stable sort; `List.insertionSort` with a
less-or-equal key comparison is also stable, and all stable sorts of a list
under the same total key preorder coincide. -/
noncomputable def findPointsMatches (points : List Point) (circles : List Circle)
    (frame_count : ℤ) : List Cand :=
  greedyWalk (List.insertionSort candLe (candidateList circles frame_count points)) []

/-- The predicted squared distances of every (point, circle) pair, in the
nested iteration order of point.py lines 433-442. -/
def allDistances : List Point → List Circle → List ℚ
  | [], _ => []
  | p :: rest, circles =>
      circles.map (fun c => p.predicted_distance_squared c) ++ allDistances rest circles

/-! ## Clusters (src/tracking/cluster.py)

A `Cluster` owns a Python set of `Point` objects and a cached centroid.
The set is modelled as a list of member values (object identity becomes
value identity, see the module docstring); `get_center` reads each member's
integer-truncated `.x`/`.y` properties. -/

/-- `get_center(points)` (cluster.py lines 104-112) applied to already
projected `(x, y)` pairs. -/
def get_center (pts : List (ℚ × ℚ)) : ℚ × ℚ :=
  ((pts.map (fun q => q.1)).sum / (pts.length : ℚ),
   (pts.map (fun q => q.2)).sum / (pts.length : ℚ))

/-- A cluster of tracked points (cluster.py lines 11-18). -/
structure Cluster where
  points : List Point
  center : ℚ × ℚ
  deriving DecidableEq

/-- `Cluster.update` (cluster.py lines 33-37): recompute the centroid from
the members' `.x`/`.y` properties (`SimplePoint(0, 0)` when empty). -/
def Cluster.update (cl : Cluster) : Cluster :=
  { cl with
    center := if cl.points.length = 0 then (0, 0)
              else get_center (cl.points.map Point.xy) }

/-- `Cluster.add(point)` (cluster.py lines 23-26): set insertion followed by
a centroid update. -/
def Cluster.add (cl : Cluster) (p : Point) : Cluster :=
  Cluster.update { cl with
    points := if p ∈ cl.points then cl.points else cl.points ++ [p] }

/-- `Cluster.__init__(points)` (cluster.py lines 13-18). -/
def Cluster.init (pts : List Point) : Cluster :=
  Cluster.update { points := pts, center := (0, 0) }

/-- `Cluster.sim_center(point_candidate)` (cluster.py lines 39-40):
centroid of `list(self.points) + [point_candidate]`. -/
def Cluster.sim_center (cl : Cluster) (cand : Point) : ℚ × ℚ :=
  get_center (cl.points.map Point.xy ++ [cand.xy])

/-- `SimplePoint.distance_squared` (point.py lines 77-78) on raw pairs. -/
def sqDistXY (a b : ℚ × ℚ) : ℚ := (b.1 - a.1) ^ 2 + (b.2 - a.2) ^ 2

/-- The grow-an-existing-cluster step of `find_clusters` (cluster.py lines
166-185; lines 187-204 are its mirror image with `a` and `b` swapped):
reject when the cluster is at the membership cap; otherwise simulate the
centroid with the candidate added, then validate the distance from the
simulated centroid to every entry of `list(cluster.points) + [center_sim]`
— the existing members and THE SIMULATED CENTROID ITSELF (always at
distance 0), NOT the candidate point `b` — and insert the candidate when
the validation passes.  Returns whether the insertion was accepted and the
resulting cluster. -/
def simInsertStep (cl : Cluster) (b : Point) (max_radius_sq : ℚ)
    (max_length : ℤ) : Bool × Cluster :=
  if 0 < max_length ∧ max_length ≤ (cl.points.length : ℤ) then (false, cl)
  else
    let center_sim := cl.sim_center b
    let checked := cl.points.map Point.xy ++ [center_sim]
    if checked.all (fun pt => !decide (max_radius_sq < sqDistXY center_sim pt)) then
      (true, cl.add b)
    else (false, cl)

/-! ## Concrete instances used by the claim theorems -/

/-- A detection at `(x, y)` in frame `frame` with neutral shape data. -/
def mkCircle (frame : ℤ) (x y : ℚ) : Circle :=
  { frame := frame, x := x, y := y, radius := 5, circularity := 1, color := (0, 0, 0) }

/-- Cluster member at `(-1, 0)`. -/
def pA : Point := Point.init (mkCircle 0 (-1) 0)

/-- Cluster member at `(1, 0)`. -/
def pB : Point := Point.init (mkCircle 0 1 0)

/-- Cluster candidate at `(120, 0)`. -/
def pCand : Point := Point.init (mkCircle 0 120 0)

/-- A two-member cluster around the origin. -/
def clC1 : Cluster := Cluster.init [pA, pB]

/-- A newborn point at the origin (window holds one entry). -/
def pOrigin : Point := Point.init (mkCircle 0 0 0)

/-- Detection at `(1, 0)` in frame 1. -/
def cNear1 : Circle := mkCircle 1 1 0

/-- Detection at `(2, 0)` in frame 1. -/
def cNear2 : Circle := mkCircle 1 2 0

/-- Detection at `(20, 0)` in frame 1: plain distance 20 from the origin,
squared distance 400. -/
def cDist20 : Circle := mkCircle 1 20 0

/-- A newborn point whose single detection has fractional coordinates. -/
def pHalf : Point := Point.init (mkCircle 0 (1/2) 0)

/-- The spec's prediction scenario: initialized at `(100, 100)` in frame 0,
updated at `(110, 100)` in frame 1. -/
def pScen : Point := (Point.init (mkCircle 0 100 100)).update (mkCircle 1 110 100)

/-- A stationary point: two detections at `(100, 100)` in frames 0 and 1,
so its mean velocity is the zero vector. -/
def pStill : Point := (Point.init (mkCircle 0 100 100)).update (mkCircle 1 100 100)

/-- A moving point: `(0, 0)` in frame 0 then `(10, 0)` in frame 1 (mean
velocity `(10, 0)`, norm 10). -/
def pMove : Point := (Point.init (mkCircle 0 0 0)).update (mkCircle 1 10 0)

/-- A detection at `(5, 200)` in frame 2, strictly outside `pMove`'s search
triangle. -/
def dOutside : Circle := mkCircle 2 5 200

/-! ## Claim C7: expiry -/

/-- Health after a run of `update_empty` calls: each call subtracts 5. -/
theorem foldl_update_empty_health (frames : List ℤ) :
    ∀ p : Point, (frames.foldl Point.update_empty p).health =
      p.health - 5 * frames.length := by
  induction frames with
  | nil => intro p; simp
  | cons f rest ih =>
    intro p
    simp only [List.foldl_cons, ih, Point.update_empty, List.length_cons]
    push_cast
    ring

/-- C7: `is_expired(current_frame)` returns true iff `health < -FRAME_TIMEOUT`
(`T = 20`); consequently, for every point whose health is at most
`POINT_MAX_HEALTH = 50` (any point that has been matched at least once),
`T + 1 = 21` consecutive `update_empty` calls with no intervening match
leave it expired. -/
theorem c7_is_expired_iff (p : Point) (f : ℤ) :
    (p.is_expired f = true ↔ p.health < -FRAME_TIMEOUT) ∧
    (p.health ≤ POINT_MAX_HEALTH →
      ∀ frames : List ℤ, frames.length = FRAME_TIMEOUT.toNat + 1 →
        (frames.foldl Point.update_empty p).is_expired f = true) := by
  constructor
  · simp [Point.is_expired]
  · intro hmax frames hlen
    have h := foldl_update_empty_health frames p
    rw [hlen] at h
    simp only [Point.is_expired, decide_eq_true_eq, h, FRAME_TIMEOUT, POINT_MAX_HEALTH] at *
    omega

/-- Witness for C7 at a concrete point (health 1 after its initial match)
and a concrete run of 21 empty frames. -/
theorem c7_is_expired_iff_witness :
    pOrigin.health ≤ POINT_MAX_HEALTH ∧
    (List.replicate 21 (0 : ℤ)).length = FRAME_TIMEOUT.toNat + 1 ∧
    ((List.replicate 21 (0 : ℤ)).foldl Point.update_empty pOrigin).is_expired 21 = true := by
  refine ⟨?_, ?_, (c7_is_expired_iff pOrigin 21).2 ?_ (List.replicate 21 (0 : ℤ)) ?_⟩
  · norm_num [pOrigin, Point.init, Point.update, Point.blank, mkCircle, POINT_MAX_HEALTH]
  · decide
  · norm_num [pOrigin, Point.init, Point.update, Point.blank, mkCircle, POINT_MAX_HEALTH]
  · decide

/-! ## Claim C8: bounded history and health -/

/-- An arbitrary interleaving of `update` and `update_empty` calls applied
to a tracked point. -/
inductive PointOp where
  | update (c : Circle)
  | update_empty (f : ℤ)

/-- Run a sequence of calls against a point state. -/
def runOps : Point → List PointOp → Point
  | p, [] => p
  | p, PointOp.update c :: rest => runOps (p.update c) rest
  | p, PointOp.update_empty f :: rest => runOps (p.update_empty f) rest

/-- The bounded-buffers/bounded-health invariant of a tracked point. -/
def pointBounded (p : Point) : Prop :=
  p.frame_numbers.length ≤ WINDOW_SIZE ∧
  p.circle_history.length ≤ WINDOW_SIZE ∧
  p.x_window.length ≤ WINDOW_SIZE ∧
  p.y_window.length ≤ WINDOW_SIZE ∧
  p.circularity_window.length ≤ WINDOW_SIZE ∧
  p.color_window.length ≤ WINDOW_SIZE ∧
  p.health ≤ POINT_MAX_HEALTH

/-- A bounded append never exceeds the bound. -/
theorem dequeAppend_length_le (maxlen : ℕ) (l : List α) (x : α) :
    (dequeAppend maxlen l x).length ≤ maxlen := by
  simp only [dequeAppend, List.length_drop, List.length_append, List.length_cons,
    List.length_nil]
  omega

/-- One `update` preserves the invariant. -/
theorem update_pointBounded (p : Point) (c : Circle) (h : pointBounded p) :
    pointBounded (p.update c) := by
  obtain ⟨-, -, -, -, -, -, hh⟩ := h
  refine ⟨dequeAppend_length_le .., dequeAppend_length_le .., dequeAppend_length_le ..,
    dequeAppend_length_le .., dequeAppend_length_le .., dequeAppend_length_le .., ?_⟩
  simp only [Point.update]
  split <;> omega

/-- One `update_empty` preserves the invariant. -/
theorem update_empty_pointBounded (p : Point) (f : ℤ) (h : pointBounded p) :
    pointBounded (p.update_empty f) := by
  obtain ⟨h1, h2, h3, h4, h5, h6, hh⟩ := h
  exact ⟨h1, h2, h3, h4, h5, h6, by simp only [Point.update_empty]; omega⟩

/-- Any run of calls preserves the invariant. -/
theorem runOps_pointBounded (ops : List PointOp) :
    ∀ p : Point, pointBounded p → pointBounded (runOps p ops) := by
  induction ops with
  | nil => exact fun p h => h
  | cons op rest ih =>
    intro p h
    cases op with
    | update c => exact ih _ (update_pointBounded p c h)
    | update_empty f => exact ih _ (update_empty_pointBounded p f h)

/-- C8: for every sequence of `update` / `update_empty` calls applied to a
point after construction, no history buffer ever exceeds `WINDOW_SIZE = 10`
entries and health never exceeds `POINT_MAX_HEALTH = 50`. -/
theorem c8_bounded_buffers_and_health (c : Circle) (ops : List PointOp) :
    pointBounded (runOps (Point.init c) ops) := by
  refine runOps_pointBounded ops (Point.init c) (update_pointBounded Point.blank c ?_)
  exact ⟨by simp [Point.blank], by simp [Point.blank], by simp [Point.blank],
    by simp [Point.blank], by simp [Point.blank], by simp [Point.blank],
    by simp [Point.blank, POINT_MAX_HEALTH]⟩

/-! ## Claim C9: decay then growth beats decay twice -/

/-- C9: from any point state, `update_empty` followed by `update` leaves
strictly more health than two consecutive `update_empty` calls. -/
theorem c9_update_beats_empty (p : Point) (f1 f2 : ℤ) (c : Circle) :
    ((p.update_empty f1).update c).health > ((p.update_empty f1).update_empty f2).health := by
  simp only [Point.update, Point.update_empty, gt_iff_lt]
  split <;> omega

/-! ## Claim C6: predicted position -/

/-- C6 counterexample: for a newborn point whose single detection sits at
`x = 1/2`, `predicted_pos` returns the INTEGER-TRUNCATED mean `(0, 0)`, not
the raw mean position `(1/2, 0)` — the claim's "returns the current raw
mean position" fails on fractional detection coordinates. -/
theorem c6_counterexample :
    pHalf.x_window.length < 2 ∧
    pHalf.x_window_mean = 1 / 2 ∧ pHalf.y_window_mean = 0 ∧
    pHalf.predicted_pos (-1) = (0, 0) ∧
    pHalf.predicted_pos (-1) ≠ (pHalf.x_window_mean, pHalf.y_window_mean) := by
  have htd : Int.tdiv 1 2 = 0 := by decide
  norm_num [htd, pHalf, Point.init, Point.update, Point.blank, Point.predicted_pos,
    Point.xInt, Point.yInt, dequeAppend, listMean, listDiff, colorMean, mkCircle,
    WINDOW_SIZE, pyInt]
  intro h
  rw [Prod.ext_iff] at h
  norm_num at h

/-- C6 (amended): `predicted_pos(target_frame)` returns the
integer-truncated current mean position (the point's `pos` property) when
the history holds fewer than 2 entries, and otherwise extrapolates
linearly, `last_position + mean_velocity * multiplier`, where the
multiplier is 1 for an unspecified target frame (the `-1` sentinel) and
`target_frame - last_matched_frame` otherwise; in the spec's concrete
scenario — initialized at `(100, 100)`, updated at `(110, 100)` one frame
later — the prediction for the following frame is `(120, 100)`. -/
theorem c6_predicted_pos_spec (p : Point) (t : ℤ) :
    (p.x_window.length < 2 →
      p.predicted_pos t = ((p.xInt : ℚ), (p.yInt : ℚ))) ∧
    (2 ≤ p.x_window.length →
      p.predicted_pos t =
        (p.x_window.getLastD 0 +
           p.x_velocity_mean * (((if t = -1 then 1 else t - p.last_frame) : ℤ) : ℚ),
         p.y_window.getLastD 0 +
           p.y_velocity_mean * (((if t = -1 then 1 else t - p.last_frame) : ℤ) : ℚ))) ∧
    pScen.predicted_pos 2 = (120, 100) := by
  refine ⟨?_, ?_, ?_⟩
  · intro h
    rw [Point.predicted_pos, if_pos h]
  · intro h
    rw [Point.predicted_pos, if_neg (by omega)]
  · norm_num [pScen, Point.init, Point.update, Point.blank, Point.predicted_pos,
      Point.last_frame, Point.xInt, Point.yInt, dequeAppend, listMean, listDiff,
      colorMean, mkCircle, WINDOW_SIZE, pyInt, List.getLastD]

/-- Witness for C6 at a concrete newborn point. -/
theorem c6_predicted_pos_spec_witness :
    pOrigin.x_window.length < 2 ∧
    pOrigin.predicted_pos 7 = ((pOrigin.xInt : ℚ), (pOrigin.yInt : ℚ)) := by
  have hlen : pOrigin.x_window.length < 2 := by
    norm_num [pOrigin, Point.init, Point.update, Point.blank, dequeAppend, mkCircle,
      WINDOW_SIZE]
  exact ⟨hlen, (c6_predicted_pos_spec pOrigin 7).1 hlen⟩

/-! ## Claim C5: the flat distance threshold for newborn points -/

/-- C5 counterexample: a newborn point at the origin and a detection 20
pixels away (squared distance 400, well within 320 "units" of plain
distance) produce NO candidate pair, because `find_points` compares the
SQUARED distance against `MAX_DISTANCE = 320` (point.py line 444). -/
theorem c5_counterexample :
    pOrigin.x_window.length < 2 ∧
    pOrigin.is_expired 1 = false ∧
    pOrigin.predicted_distance_squared cDist20 = 400 ∧
    (400 : ℚ) ≤ 320 ^ 2 ∧
    candidateList [cDist20] 1 [pOrigin] = [] := by
  norm_num [candidateList, candOf, Point.in_predicted_bounds, PyVal.truthy,
    Point.is_expired, Point.predicted_distance_squared,
    Point.predicted_pos, Point.xInt, Point.yInt, pOrigin, cDist20,
    Point.init, Point.update, Point.blank, dequeAppend, listMean, listDiff, colorMean,
    mkCircle, WINDOW_SIZE, pyInt, MAX_DISTANCE, FRAME_TIMEOUT, POINT_MAX_HEALTH]

/-- C5 (amended): a live point with no valid search region (history < 2) is
matchable against any detection whose SQUARED predicted distance is
strictly below `MAX_DISTANCE = 320` (i.e. plain distance below
`√320 ≈ 17.9`): for every such point and detection, a candidate pair
carrying that squared distance is recorded for the greedy matching walk. -/
theorem c5_candidate_recorded (points : List Point) (circles : List Circle)
    (frame_count : ℤ) (p : Point) (c : Circle)
    (hp : p ∈ points) (hc : c ∈ circles)
    (hlen : p.x_window.length < 2)
    (halive : p.is_expired frame_count = false)
    (hdist : p.predicted_distance_squared c < MAX_DISTANCE) :
    Cand.mk p c (p.predicted_distance_squared c) ∈ candidateList circles frame_count points := by
  induction points with
  | nil => cases hp
  | cons q rest ih =>
    rw [candidateList]
    rcases List.mem_cons.mp hp with hq | hq
    · subst hq
      refine List.mem_append_left _ ?_
      rw [if_neg (by simp [halive])]
      refine List.mem_filterMap.mpr ⟨c, hc, ?_⟩
      rw [candOf, if_neg ?_]
      · simp only [hdist, if_pos]
      · simp [Point.in_predicted_bounds, if_pos hlen, PyVal.truthy]
    · exact List.mem_append_right _ (ih hq)

/-- Witness for C5 at a concrete newborn point and nearby detection. -/
theorem c5_candidate_recorded_witness :
    pOrigin.predicted_distance_squared cNear1 < MAX_DISTANCE ∧
    Cand.mk pOrigin cNear1 (pOrigin.predicted_distance_squared cNear1) ∈
      candidateList [cNear1] 1 [pOrigin] := by
  refine ⟨?_, c5_candidate_recorded [pOrigin] [cNear1] 1 pOrigin cNear1
    (List.mem_singleton.mpr rfl) (List.mem_singleton.mpr rfl) ?_ ?_ ?_⟩ <;>
    norm_num [pOrigin, cNear1, Point.init, Point.update, Point.blank, mkCircle,
      Point.predicted_distance_squared, Point.predicted_pos, Point.xInt, Point.yInt,
      Point.is_expired, dequeAppend, listMean, listDiff, colorMean, WINDOW_SIZE,
      pyInt, MAX_DISTANCE, FRAME_TIMEOUT, POINT_MAX_HEALTH]

/-! ## Claim C2: the greedy walk -/

/-- C2 counterexample: one live point at the origin and two distinct
detections nearby — the greedy walk commits BOTH pairs to the same point,
i.e. `point.update(detection)` runs twice on that point in a single frame
(point.py lines 450-456 claim circles in `paired_circles` but keep no
record of already-matched points). -/
theorem c2_counterexample :
    (findPointsMatches [pOrigin] [cNear1, cNear2] 1).map Cand.point = [pOrigin, pOrigin] ∧
    (findPointsMatches [pOrigin] [cNear1, cNear2] 1).map Cand.circle = [cNear1, cNear2] ∧
    cNear1 ≠ cNear2 := by
  norm_num [findPointsMatches, candidateList, candOf, greedyWalk, candLe,
    Point.in_predicted_bounds, PyVal.truthy, Point.is_expired, Point.predicted_distance_squared,
    Point.predicted_pos, Point.xInt, Point.yInt, pOrigin, cNear1, cNear2,
    Point.init, Point.update, Point.blank, dequeAppend, listMean, listDiff, colorMean,
    mkCircle, WINDOW_SIZE, pyInt, MAX_DISTANCE, FRAME_TIMEOUT, POINT_MAX_HEALTH,
    List.filterMap_cons, List.insertionSort, List.orderedInsert]

/-- The committed circles of a greedy walk are pairwise distinct and avoid
the already-claimed list. -/
theorem greedyWalk_circles_nodup (cands : List Cand) :
    ∀ paired : List Circle,
      ((greedyWalk cands paired).map Cand.circle).Nodup ∧
      ∀ c ∈ (greedyWalk cands paired).map Cand.circle, c ∉ paired := by
  induction cands with
  | nil => intro paired; simp [greedyWalk]
  | cons k rest ih =>
    intro paired
    by_cases hk : k.circle ∈ paired
    · simpa [greedyWalk, hk] using ih paired
    · have h2 := ih (paired ++ [k.circle])
      simp only [greedyWalk, hk, if_neg, ite_false, List.map_cons]
      constructor
      · refine List.nodup_cons.mpr ⟨?_, h2.1⟩
        intro hmem
        exact absurd (List.mem_append_right paired (List.mem_singleton.mpr rfl))
          (h2.2 k.circle hmem)
      · intro c hc
        rcases List.mem_cons.mp hc with hc | hc
        · exact hc ▸ hk
        · exact fun hcp => h2.2 c hc (List.mem_append_left _ hcp)

/-- C2 (amended): in the per-frame greedy walk, each detection is claimed
at most once — the committed matches carry pairwise-distinct circles — for
every input; (points, by contrast, are not deduplicated, see
`c2_counterexample`). -/
theorem c2_detections_claimed_once (points : List Point) (circles : List Circle)
    (frame_count : ℤ) :
    ((findPointsMatches points circles frame_count).map Cand.circle).Nodup :=
  (greedyWalk_circles_nodup _ []).1

/-! ## Claim C1: cluster insertion skips the candidate's own radius check -/

/-- C1: the cluster-growth validation accepts the candidate `pCand` even
though `pCand` itself ends up at squared distance `6400 > 75² = 5625` from
the simulated centroid: accepted flag true, candidate inserted, while the
pair `(pA, pCand)` passes the `(2R)²` prefilter that admits it into the
sorted pair walk.  The loop at cluster.py line 176 checks
`list(points) + [center_sim]` — the centroid against itself — instead of
the candidate. -/
theorem c1_cluster_insert_unchecked :
    (simInsertStep clC1 pCand ((75 : ℚ) ^ 2) 0).1 = true ∧
    pCand ∈ (simInsertStep clC1 pCand ((75 : ℚ) ^ 2) 0).2.points ∧
    (75 : ℚ) ^ 2 < sqDistXY (clC1.sim_center pCand) pCand.xy ∧
    pA.distance_squared pCand ≤ ((75 : ℚ) * 2) ^ 2 := by
  norm_num [simInsertStep, clC1, pCand, pA, pB, Cluster.init, Cluster.update, Cluster.add,
    Cluster.sim_center, get_center, sqDistXY, Point.init, Point.update, Point.blank,
    Point.xy, Point.xInt, Point.yInt, Point.distance_squared, dequeAppend, listMean,
    listDiff, colorMean, mkCircle, WINDOW_SIZE, pyInt]

/-! ## Claim C10: permutation invariance of the greedy correspondence -/

/-- A kept candidate's key is the predicted squared distance of its pair. -/
theorem candOf_distSq {p : Point} {c : Circle} {k : Cand}
    (h : candOf p c = some k) : k.distSq = p.predicted_distance_squared c := by
  rw [candOf] at h
  split at h
  · cases h
  · dsimp only at h
    split at h
    · cases h
      rfl
    · cases h

/-- The keys of the candidates kept from one point's inner loop form a
sublist of that point's distance row. -/
theorem candOf_keys_sublist (p : Point) :
    ∀ circles : List Circle,
      ((circles.filterMap (candOf p)).map Cand.distSq).Sublist
        (circles.map (fun c => p.predicted_distance_squared c)) := by
  intro circles
  induction circles with
  | nil => simp
  | cons c rest ih =>
    rw [List.filterMap_cons]
    cases h : candOf p c with
    | none =>
      rw [List.map_cons]
      exact ih.cons _
    | some k =>
      rw [List.map_cons, List.map_cons, candOf_distSq h]
      exact ih.cons₂ _

/-- The keys of the whole candidate list form a sublist of the full
rectangle of pairwise predicted squared distances. -/
theorem candidateList_keys_sublist (circles : List Circle) (frame_count : ℤ) :
    ∀ points : List Point,
      ((candidateList circles frame_count points).map Cand.distSq).Sublist
        (allDistances points circles) := by
  intro points
  induction points with
  | nil => simp [candidateList, allDistances]
  | cons p rest ih =>
    rw [candidateList, allDistances, List.map_append]
    refine List.Sublist.append ?_ ih
    by_cases hp : p.is_expired frame_count
    · simp [hp]
    · rw [if_neg (by simp [hp])]
      exact candOf_keys_sublist p circles

/-- Permuting the detection list permutes the candidate list. -/
theorem candidateList_perm {circles1 circles2 : List Circle} (frame_count : ℤ)
    (h : circles1.Perm circles2) :
    ∀ points : List Point,
      (candidateList circles1 frame_count points).Perm
        (candidateList circles2 frame_count points) := by
  intro points
  induction points with
  | nil => rfl
  | cons p rest ih =>
    rw [candidateList, candidateList]
    refine List.Perm.append ?_ ih
    by_cases hp : p.is_expired frame_count
    · simp [hp]
    · rw [if_neg (by simp [hp]), if_neg (by simp [hp])]
      exact h.filterMap (candOf p)

/-- Two sorted candidate lists that are permutations of each other and
whose keys are pairwise distinct are equal. -/
theorem sorted_nodup_keys_unique {l1 l2 : List Cand}
    (hperm : l1.Perm l2)
    (hs1 : l1.Sorted candLe) (hs2 : l2.Sorted candLe)
    (hnd : (l1.map Cand.distSq).Nodup) : l1 = l2 := by
  have hne1 : l1.Pairwise (fun a b => a.distSq ≠ b.distSq) := List.pairwise_map.mp hnd
  have hnd2 : (l2.map Cand.distSq).Nodup := ((hperm.map Cand.distSq).nodup_iff).mp hnd
  have hne2 : l2.Pairwise (fun a b => a.distSq ≠ b.distSq) := List.pairwise_map.mp hnd2
  have hlt1 : l1.Pairwise candLt :=
    List.Pairwise.imp₂ (fun _ _ hle hne => lt_of_le_of_ne hle hne) hs1 hne1
  have hlt2 : l2.Pairwise candLt :=
    List.Pairwise.imp₂ (fun _ _ hle hne => lt_of_le_of_ne hle hne) hs2 hne2
  exact List.eq_of_perm_of_sorted hperm hlt1 hlt2

/-- C10: when all pairwise predicted squared distances between the points
and the detections are distinct, the matches committed by the greedy
per-frame correspondence are identical for any permutation of the
detection list. -/
theorem c10_matches_perm_invariant (points : List Point)
    (circles1 circles2 : List Circle) (frame_count : ℤ)
    (hperm : circles1.Perm circles2)
    (hnd : (allDistances points circles2).Nodup) :
    findPointsMatches points circles1 frame_count =
      findPointsMatches points circles2 frame_count := by
  have hcand := candidateList_perm frame_count hperm points
  have hsortperm :
      (List.insertionSort candLe (candidateList circles1 frame_count points)).Perm
        (List.insertionSort candLe (candidateList circles2 frame_count points)) :=
    ((List.perm_insertionSort candLe _).trans hcand).trans
      (List.perm_insertionSort candLe _).symm
  have hkeys2 : ((candidateList circles2 frame_count points).map Cand.distSq).Nodup :=
    (candidateList_keys_sublist circles2 frame_count points).nodup hnd
  have hkeys1 :
      ((List.insertionSort candLe (candidateList circles1 frame_count points)).map
        Cand.distSq).Nodup := by
    refine (((hsortperm.trans (List.perm_insertionSort candLe _)).map Cand.distSq).nodup_iff).mpr
      hkeys2
  have heq :
      List.insertionSort candLe (candidateList circles1 frame_count points) =
        List.insertionSort candLe (candidateList circles2 frame_count points) :=
    sorted_nodup_keys_unique hsortperm
      (List.sorted_insertionSort candLe _) (List.sorted_insertionSort candLe _) hkeys1
  rw [findPointsMatches, findPointsMatches, heq]

/-- Witness for C10: one live point, two detections at distinct distances,
the two detection orders give identical match lists. -/
theorem c10_matches_perm_invariant_witness :
    ([cNear2, cNear1] : List Circle).Perm [cNear1, cNear2] ∧
    (allDistances [pOrigin] [cNear1, cNear2]).Nodup ∧
    findPointsMatches [pOrigin] [cNear2, cNear1] 1 =
      findPointsMatches [pOrigin] [cNear1, cNear2] 1 := by
  have hnd : (allDistances [pOrigin] [cNear1, cNear2]).Nodup := by
    norm_num [allDistances, Point.predicted_distance_squared,
      Point.predicted_pos, Point.xInt, Point.yInt, pOrigin, cNear1, cNear2,
      Point.init, Point.update, Point.blank, dequeAppend, listMean, listDiff, colorMean,
      mkCircle, WINDOW_SIZE, pyInt]
  exact ⟨List.Perm.swap cNear1 cNear2 [], hnd,
    c10_matches_perm_invariant [pOrigin] [cNear2, cNear1] [cNear1, cNear2] 1
      (List.Perm.swap cNear1 cNear2 []) hnd⟩

/-! ## Claim C3: zero-velocity search bounds -/

/-- C3: a stationary tracked point (two matches at the same position, so
both mean velocity components are 0) has a full 2-entry window, and
`get_search_bounds` — far from being guarded and degrading to `None` —
divides the zero velocity vector by its zero norm (point.py line 237) and
returns a triangle all of whose coordinates are NaN, which is then stored
as the point's search region. -/
theorem c3_zero_velocity_nan_bounds :
    pStill.x_velocity_mean = 0 ∧ pStill.y_velocity_mean = 0 ∧
    2 ≤ pStill.x_window.length ∧
    pStill.get_search_bounds = some [(none, none), (none, none), (none, none)] ∧
    pStill.get_search_bounds ≠ none := by
  have hx : pStill.x_velocity_mean = 0 := by
    norm_num [pStill, Point.init, Point.update, Point.blank, dequeAppend, listMean,
      listDiff, colorMean, mkCircle, WINDOW_SIZE]
  have hy : pStill.y_velocity_mean = 0 := by
    norm_num [pStill, Point.init, Point.update, Point.blank, dequeAppend, listMean,
      listDiff, colorMean, mkCircle, WINDOW_SIZE]
  have hlen : pStill.x_window.length = 2 := by
    norm_num [pStill, Point.init, Point.update, Point.blank, dequeAppend, mkCircle,
      WINDOW_SIZE]
  have hbounds : pStill.get_search_bounds =
      some [(none, none), (none, none), (none, none)] := by
    rw [Point.get_search_bounds, if_neg (by omega)]
    simp only [searchTriangle, hx, hy]
    norm_num [fadd, fsub, fmul, fdiv, fsqrt, Real.sqrt_zero]
  exact ⟨hx, hy, by omega, hbounds, by rw [hbounds]; exact Option.some_ne_none _⟩

/-! ## Claim C4: the bounds check returns a float, and -1 is truthy -/

/-- The cross products of the concrete search triangle of `pMove` against
the detection at `(5, 200)`, with `s = √3`:
edge 1 gives `2000 + 20000 s > 0`, edge 2 gives `-20000 s < 0`,
edge 3 gives `-6000 - 20000 s < 0` — mixed signs, all nonzero. -/
theorem pptTri_outside_eval :
    pptTri (-15, 0) (5 + 100 * Real.sqrt 3, 100) (5 + 100 * Real.sqrt 3, -100)
      (5, 200) = -1 := by
  have hgt : (0 : ℝ) < Real.sqrt 3 := Real.sqrt_pos.mpr (by norm_num)
  have hc1 : cross2 (-15, 0) (5 + 100 * Real.sqrt 3, 100) (5, 200) =
      2000 + 20000 * Real.sqrt 3 := by
    simp only [cross2]
    ring
  have hc2 : cross2 (5 + 100 * Real.sqrt 3, 100) (5 + 100 * Real.sqrt 3, -100) (5, 200) =
      -20000 * Real.sqrt 3 := by
    simp only [cross2]
    ring
  have hc3 : cross2 (5 + 100 * Real.sqrt 3, -100) (-15, 0) (5, 200) =
      -6000 - 20000 * Real.sqrt 3 := by
    simp only [cross2]
    ring
  have hb : ¬(onSegment (-15, 0) (5 + 100 * Real.sqrt 3, 100) (5, 200) ∨
      onSegment (5 + 100 * Real.sqrt 3, 100) (5 + 100 * Real.sqrt 3, -100) (5, 200) ∨
      onSegment (5 + 100 * Real.sqrt 3, -100) (-15, 0) (5, 200)) := by
    rintro (h | h | h)
    · have hpos : (0 : ℝ) < 2000 + 20000 * Real.sqrt 3 := by nlinarith
      rw [onSegment, hc1] at h
      exact absurd h.1 (ne_of_gt hpos)
    · have hneg : -20000 * Real.sqrt 3 < (0 : ℝ) := by nlinarith
      rw [onSegment, hc2] at h
      exact absurd h.1 (ne_of_lt hneg)
    · have hneg : -6000 - 20000 * Real.sqrt 3 < (0 : ℝ) := by nlinarith
      rw [onSegment, hc3] at h
      exact absurd h.1 (ne_of_lt hneg)
  have hi : ¬((0 < cross2 (-15, 0) (5 + 100 * Real.sqrt 3, 100) (5, 200) ∧
        0 < cross2 (5 + 100 * Real.sqrt 3, 100) (5 + 100 * Real.sqrt 3, -100) (5, 200) ∧
        0 < cross2 (5 + 100 * Real.sqrt 3, -100) (-15, 0) (5, 200)) ∨
      (cross2 (-15, 0) (5 + 100 * Real.sqrt 3, 100) (5, 200) < 0 ∧
        cross2 (5 + 100 * Real.sqrt 3, 100) (5 + 100 * Real.sqrt 3, -100) (5, 200) < 0 ∧
        cross2 (5 + 100 * Real.sqrt 3, -100) (-15, 0) (5, 200) < 0)) := by
    rintro (⟨-, h2, -⟩ | ⟨h1, -, -⟩)
    · rw [hc2] at h2
      nlinarith
    · rw [hc1] at h1
      nlinarith
  rw [pptTri, if_neg hb, if_neg hi]

/-- C4: for a point with a full history (two entries, mean velocity
`(10, 0)`) and a detection strictly OUTSIDE its triangular search region,
`in_predicted_bounds` does not return a boolean at all: it returns the raw
float `-1.0` from `cv2.pointPolygonTest` (point.py line 271, contradicting
its own docstring "True if the object is inside the bounds ... False
otherwise"), and `-1.0` is TRUTHY, so the `if not
point.in_predicted_bounds(circle)` filter of `find_points` (line 439)
treats the outside detection as contained. -/
theorem c4_outside_detection_truthy :
    2 ≤ pMove.x_window.length ∧
    pMove.in_predicted_bounds dOutside = PyVal.float (some (-1)) ∧
    (pMove.in_predicted_bounds dOutside).truthy = true := by
  have htd5 : Int.tdiv 5 1 = 5 := by decide
  have hxv : pMove.x_velocity_mean = 10 := by
    norm_num [pMove, Point.init, Point.update, Point.blank, dequeAppend, listMean,
      listDiff, colorMean, mkCircle, WINDOW_SIZE]
  have hyv : pMove.y_velocity_mean = 0 := by
    norm_num [pMove, Point.init, Point.update, Point.blank, dequeAppend, listMean,
      listDiff, colorMean, mkCircle, WINDOW_SIZE]
  have hxi : pMove.xInt = 5 := by
    norm_num [pMove, Point.init, Point.update, Point.blank, dequeAppend, listMean,
      listDiff, colorMean, mkCircle, WINDOW_SIZE, Point.xInt, pyInt, htd5]
  have hyi : pMove.yInt = 0 := by
    norm_num [pMove, Point.init, Point.update, Point.blank, dequeAppend, listMean,
      listDiff, colorMean, mkCircle, WINDOW_SIZE, Point.yInt, pyInt]
  have hlen : pMove.x_window.length = 2 := by
    norm_num [pMove, Point.init, Point.update, Point.blank, dequeAppend, mkCircle,
      WINDOW_SIZE]
  have h100 : Real.sqrt 100 = 10 := by
    rw [show (100 : ℝ) = 10 ^ 2 by norm_num]
    exact Real.sqrt_sq (by norm_num)
  have hcos : Real.cos ROTATION_THETA = Real.sqrt 3 / 2 := by
    rw [ROTATION_THETA]
    exact Real.cos_pi_div_six
  have hsin : Real.sin ROTATION_THETA = 1 / 2 := by
    rw [ROTATION_THETA]
    exact Real.sin_pi_div_six
  have htri : searchTriangle pMove =
      [(some (-15), some 0),
       (some (5 + 100 * Real.sqrt 3), some 100),
       (some (5 + 100 * Real.sqrt 3), some (-100))] := by
    simp only [searchTriangle, hxv, hyv, hxi, hyi]
    push_cast
    norm_num [fadd, fsub, fmul, fdiv, fsqrt, h100, hcos, hsin, BOUNDS_MULTIPLIER,
      Real.cos_neg, Real.sin_neg]
    ring
  have hib : pMove.in_predicted_bounds dOutside = PyVal.float (some (-1)) := by
    rw [Point.in_predicted_bounds, if_neg (by omega)]
    rw [htri]
    have hcast : (((dOutside.x : ℚ) : ℝ), ((dOutside.y : ℚ) : ℝ)) = ((5 : ℝ), (200 : ℝ)) := by
      norm_num [dOutside, mkCircle]
    simp only [fPointPolygonTest, extractTriangle, hcast]
    simp only [Option.map_some', Option.some_bind]
    rw [pptTri_outside_eval]
  refine ⟨by omega, hib, ?_⟩
  rw [hib]
  simp [PyVal.truthy]

end Tracking
